import Mathlib

/-!
Shallow embedding of the `lucet-wasi-sdk` build driver
(`src/lucet-wasi-sdk/src/lib.rs`).

The driver orchestrates a WASI-targeted clang: a `Compile` job turns one C
source into an object file, a `Link` job turns inputs into a wasm module,
and a `Lucetc` pipeline chains linking with an external code generator
inside a scoped temporary directory.

Effects are modelled explicitly:
- the process environment is a partial map `String → Option String`;
- the filesystem is an existence predicate `String → Bool`;
- spawning a subprocess is a function in the `World` record returning
  `Option Output` (`none` models `std::process::Command::output` failing,
  which the source turns into a panic via `expect`);
- writes to the driver's standard streams are collected as a trace;
- `panic!`-style aborts (`expect`/`unwrap` in the source) are a dedicated
  `RunStatus.panicked` outcome, distinct from returned errors.

Paths are modelled as strings, `PathBuf::push` as appending `/component`.
Captured subprocess streams (`Vec<u8>` in the source, converted with
`from_utf8_lossy`) are modelled as strings with the conversion implicit.
The host platform, a compile-time `cfg` in the source, is an explicit
`Platform` parameter.
-/

namespace WasiSdk

/-- Source `const WASI_TARGET: &str`. -/
def WASI_TARGET : String := "wasm32-unknown-wasi"

/-- The two host platform profiles selected by `cfg(target_os = "macos")`. -/
inductive Platform
  | MachO
  | ELF
deriving DecidableEq, Repr

/-- Source `std::process::Output`: captured streams and exit status of a child. -/
structure Output where
  stdout : String
  stderr : String
  success : Bool
deriving DecidableEq, Repr

/-- The `CompileError` enum: the driver's closed error set. -/
inductive CompileError
  | FileNotFound (path : String)
  | Execution (stdout stderr : String)
  | Lucetc (cause : String)
  | IOFailure (cause : String)
deriving DecidableEq, Repr

/-- A write to one of the driver's standard streams. -/
inductive StdWrite
  | toOut (s : String)
  | toErr (s : String)
deriving DecidableEq, Repr

/-- Source `CompileError::check`: if `print` is set, write both captured streams
through to the driver's stdout and stderr; then inspect the exit status,
returning `Ok(())` on success and an `Execution` error carrying the
captured streams otherwise. The returned list is the stream-write trace. -/
def CompileError.check (output : Output) (print : Bool) :
    List StdWrite × Except CompileError Unit :=
  ( if print then [StdWrite.toOut output.stdout, StdWrite.toErr output.stderr]
    else [],
    if output.success then Except.ok ()
    else Except.error (CompileError.Execution output.stdout output.stderr) )

/-- The process environment: a partial map from variable names to values. -/
def Env : Type := String → Option String

/-- Source `PathBuf::push` of one relative component, on string paths. -/
def pathPush (p c : String) : String := p ++ "/" ++ c

/-- Source `wasi_sdk()`: the `WASI_SDK` variable, defaulting to `/opt/wasi-sdk`. -/
def wasi_sdk (env : Env) : String :=
  match env "WASI_SDK" with
  | some v => v
  | none => "/opt/wasi-sdk"

/-- Source `wasi_sysroot()`: the `WASI_SYSROOT` variable, defaulting to
`<wasi_sdk>/share/sysroot`. -/
def wasi_sysroot (env : Env) : String :=
  match env "WASI_SYSROOT" with
  | some v => v
  | none => pathPush (pathPush (wasi_sdk env) "share") "sysroot"

/-- Source `wasm_clang()`: the `CLANG` variable, defaulting to
`<wasi_sdk>/bin/clang`. -/
def wasm_clang (env : Env) : String :=
  match env "CLANG" with
  | some v => v
  | none => pathPush (pathPush (wasi_sdk env) "bin") "clang"

/-- Source `std::process::Command` under construction: a program and its argv. -/
structure Cmd where
  program : String
  args : List String
deriving DecidableEq, Repr

/-- Source `Command::arg`: append one argument. -/
def Cmd.arg (cmd : Cmd) (a : String) : Cmd :=
  { cmd with args := cmd.args ++ [a] }

/-- The ambient effects a job runs against: environment, filesystem
existence, subprocess spawning, the external code generator
(`lucetc::Lucetc::shared_object_file`, keyed by wasm input and output
paths), and temporary-directory removal (`TempDir::close`). -/
structure World where
  env : Env
  fs : String → Bool
  spawn : String → List String → Option Output
  codegen : String → String → Except String Unit
  closeDir : String → Except String Unit

/-- Outcome of a terminal operation: normal return, a returned
`CompileError`, or a panic with the `expect` message. -/
inductive RunStatus
  | ok
  | failed (e : CompileError)
  | panicked (msg : String)
deriving DecidableEq, Repr

/-- Convert `CompileError::check`'s result into a `RunStatus`. -/
def RunStatus.ofCheck : Except CompileError Unit → RunStatus
  | Except.ok _ => RunStatus.ok
  | Except.error e => RunStatus.failed e

/-- Observable trace of one `compile`/`link` call: the command spawned
(if any spawn was attempted), the standard-stream writes, and the
outcome. -/
structure RunTrace where
  spawned : Option Cmd
  writes : List StdWrite
  status : RunStatus
deriving DecidableEq, Repr

/-- The `Compile` job: one input, accumulated cflags, print flag. -/
structure Compile where
  input : String
  cflags : List String
  print_output : Bool
deriving DecidableEq, Repr

/-- Source `Compile::new`: empty cflags, printing off. -/
def Compile.new (input : String) : Compile :=
  { input := input, cflags := [], print_output := false }

/-- Source `CompileOpts::cflag` for `Compile`: push one flag. -/
def Compile.cflag (c : Compile) (flag : String) : Compile :=
  { c with cflags := c.cflags ++ [flag] }

/-- Source `CompileOpts::with_cflag` for `Compile`. -/
def Compile.with_cflag (c : Compile) (flag : String) : Compile :=
  c.cflag flag

/-- Source `CompileOpts::include` for `Compile` (source name `include`, a Lean
keyword): push `-I<path>`. -/
def Compile.includeDir (c : Compile) (dir : String) : Compile :=
  { c with cflags := c.cflags ++ ["-I" ++ dir] }

/-- Source `Compile::with_print_output`. -/
def Compile.with_print_output (c : Compile) (print : Bool) : Compile :=
  { c with print_output := print }

/-- Source `Compile::compile(output)`: check that clang and the input exist
(returning `FileNotFound` otherwise); build the argv as
`--target=…`, `--sysroot=…`, `-c`, input, `-o`, output, then each cflag;
spawn; panic with "clang executable exists" if spawning fails; otherwise
run `CompileError::check` on the captured output. -/
def Compile.compile (c : Compile) (w : World) (output : String) : RunTrace :=
  let clang := wasm_clang w.env
  if w.fs clang = false then
    { spawned := none, writes := [],
      status := RunStatus.failed (CompileError.FileNotFound clang) }
  else if w.fs c.input = false then
    { spawned := none, writes := [],
      status := RunStatus.failed (CompileError.FileNotFound c.input) }
  else
    let cmd := Cmd.mk clang []
    let cmd := cmd.arg ("--target=" ++ WASI_TARGET)
    let cmd := cmd.arg ("--sysroot=" ++ wasi_sysroot w.env)
    let cmd := cmd.arg "-c"
    let cmd := cmd.arg c.input
    let cmd := cmd.arg "-o"
    let cmd := cmd.arg output
    let cmd := c.cflags.foldl Cmd.arg cmd
    match w.spawn cmd.program cmd.args with
    | none =>
      { spawned := some cmd, writes := [],
        status := RunStatus.panicked "clang executable exists" }
    | some run =>
      let res := CompileError.check run c.print_output
      { spawned := some cmd, writes := res.1,
        status := RunStatus.ofCheck res.2 }

/-- The `LinkOpt` enum: high-level, host-independent linker intents. -/
inductive LinkOpt
  | AllowUndefined (symbol : String)
  | AllowUndefinedAll
  | DefaultOpts
  | Export (symbol : String)
  | ExportAll
  | NoDefaultEntryPoint
  | Shared
  | StripDebug
  | StripUnused
deriving DecidableEq, Repr

/-- Source `LinkOpt::as_ldflags`: per-platform translation of an intent into
concrete linker flag strings. The `Platform.MachO` arm is the
`cfg(target_os = "macos")` body, the `Platform.ELF` arm the
`cfg(not(target_os = "macos"))` body. -/
def LinkOpt.as_ldflags (o : LinkOpt) (p : Platform) : List String :=
  match p with
  | Platform.MachO =>
    match o with
    | LinkOpt.AllowUndefined _ => []
    | LinkOpt.AllowUndefinedAll => ["-undefined,dynamic_lookup"]
    | LinkOpt.DefaultOpts => []
    | LinkOpt.Export symbol => ["-exported_symbol," ++ symbol]
    | LinkOpt.ExportAll => ["-export_dynamic"]
    | LinkOpt.NoDefaultEntryPoint => []
    | LinkOpt.Shared => ["-dylib"]
    | LinkOpt.StripDebug => ["-S"]
    | LinkOpt.StripUnused => ["-dead_strip"]
  | Platform.ELF =>
    match o with
    | LinkOpt.AllowUndefined symbol => ["-U,_" ++ symbol]
    | LinkOpt.AllowUndefinedAll => ["--allow-undefined"]
    | LinkOpt.DefaultOpts => ["--no-threads"]
    | LinkOpt.Export symbol => ["--export=" ++ symbol]
    | LinkOpt.ExportAll => ["--export-all"]
    | LinkOpt.NoDefaultEntryPoint => ["--no-entry"]
    | LinkOpt.Shared => ["--shared"]
    | LinkOpt.StripDebug => ["-S"]
    | LinkOpt.StripUnused => ["--strip-discarded"]

/-- The `Link` job: inputs, cflags, translated ldflags, print flag. -/
structure Link where
  input : List String
  cflags : List String
  ldflags : List String
  print_output : Bool
deriving DecidableEq, Repr

/-- Source `LinkOpts::link_opt` for `Link`: extend `ldflags` with the intent's
translation. -/
def Link.link_opt (l : Link) (p : Platform) (o : LinkOpt) : Link :=
  { l with ldflags := l.ldflags ++ LinkOpt.as_ldflags o p }

/-- Source `LinkOpts::with_link_opt` for `Link`. -/
def Link.with_link_opt (l : Link) (p : Platform) (o : LinkOpt) : Link :=
  l.link_opt p o

/-- Source `CompileOpts::cflag` for `Link` (via `AsLink`). -/
def Link.cflag (l : Link) (flag : String) : Link :=
  { l with cflags := l.cflags ++ [flag] }

/-- Source `CompileOpts::with_cflag` for `Link`. -/
def Link.with_cflag (l : Link) (flag : String) : Link :=
  l.cflag flag

/-- Source `CompileOpts::include` for `Link`: push `-I<path>`. -/
def Link.includeDir (l : Link) (dir : String) : Link :=
  { l with cflags := l.cflags ++ ["-I" ++ dir] }

/-- Source `Link::new`: record the inputs, start with empty cflags and ldflags
and printing off, then apply `with_link_opt(LinkOpt::DefaultOpts)`. -/
def Link.new (p : Platform) (input : List String) : Link :=
  (Link.mk input [] [] false).with_link_opt p LinkOpt.DefaultOpts

/-- Source `Link::with_print_output`. -/
def Link.with_print_output (l : Link) (print : Bool) : Link :=
  { l with print_output := print }

/-- The input loop of `Link::link`: for each input, error with
`FileNotFound` if it does not exist, otherwise append it to the argv. -/
def Link.addInputs (fs : String → Bool) (cmd : Cmd) :
    List String → Except CompileError Cmd
  | [] => Except.ok cmd
  | i :: rest =>
    if fs i = false then Except.error (CompileError.FileNotFound i)
    else Link.addInputs fs (cmd.arg i) rest

/-- Source `Link::link(output)`: check that clang exists; walk the inputs,
checking existence and accumulating them into the argv; append `-o`,
the output, each cflag, and each ldflag wrapped as `-Wl,<flag>`; spawn;
panic with "clang executable exists" if spawning fails; otherwise run
`CompileError::check`. -/
def Link.link (l : Link) (w : World) (output : String) : RunTrace :=
  let clang := wasm_clang w.env
  if w.fs clang = false then
    { spawned := none, writes := [],
      status := RunStatus.failed (CompileError.FileNotFound clang) }
  else
    match Link.addInputs w.fs (Cmd.mk clang []) l.input with
    | Except.error e =>
      { spawned := none, writes := [], status := RunStatus.failed e }
    | Except.ok cmd =>
      let cmd := (cmd.arg "-o").arg output
      let cmd := l.cflags.foldl Cmd.arg cmd
      let cmd := l.ldflags.foldl (fun c f => c.arg ("-Wl," ++ f)) cmd
      match w.spawn cmd.program cmd.args with
      | none =>
        { spawned := some cmd, writes := [],
          status := RunStatus.panicked "clang executable exists" }
      | some run =>
        let res := CompileError.check run l.print_output
        { spawned := some cmd, writes := res.1,
          status := RunStatus.ofCheck res.2 }

/-- The `Lucetc` pipeline job: an embedded `Link`, the scoped temporary
directory's path, and the fixed intermediate wasm path inside it. The
code-generator handle of the source (`lucetc::Lucetc::new(&wasm_file)`)
is keyed by `wasm_file` and modelled through `World.codegen`. -/
structure Lucetc where
  link : Link
  tmpdir : String
  wasm_file : String
deriving DecidableEq, Repr

/-- Result of `Lucetc::new`: either the job, or a panic when creating the
temporary directory failed (`TempDir::new().expect(…)`). -/
inductive MkLucetc
  | made (j : Lucetc)
  | panicked (msg : String)
deriving DecidableEq, Repr

/-- Source `Lucetc::new(input)`: build the embedded `Link` via `Link::new`,
create a temporary directory (`tmpdir = none` models creation failure,
which the source turns into a panic), and fix the intermediate wasm path
to `<tmpdir>/out.wasm`. -/
def Lucetc.new (p : Platform) (input : List String) (tmpdir : Option String) :
    MkLucetc :=
  match tmpdir with
  | none => MkLucetc.panicked "temporary directory creation failed"
  | some d =>
    MkLucetc.made
      { link := Link.new p input, tmpdir := d,
        wasm_file := pathPush d "out.wasm" }

/-- Source `LinkOpts::link_opt` for `Lucetc` (via `AsLink`): delegate to the
embedded `Link`. -/
def Lucetc.link_opt (j : Lucetc) (p : Platform) (o : LinkOpt) : Lucetc :=
  { j with link := j.link.link_opt p o }

/-- Source `CompileOpts::cflag` for `Lucetc` (via `AsLink`). -/
def Lucetc.cflag (j : Lucetc) (flag : String) : Lucetc :=
  { j with link := j.link.cflag flag }

/-- Source `Lucetc::print_output`: set the embedded `Link`'s flag. -/
def Lucetc.print_output (j : Lucetc) (print : Bool) : Lucetc :=
  { j with link := j.link.with_print_output print }

/-- Observable outcome of `Lucetc::build`: the status, and whether the
temporary directory was released by the end of the call. -/
structure BuildTrace where
  status : RunStatus
  released : Bool
deriving DecidableEq, Repr

/-- Source `Lucetc::build(output)`: link into the fixed intermediate wasm file
(`?` propagates its error); run the external code generator, wrapping its
failure as `CompileError::Lucetc`; finally close the temporary directory,
converting its I/O failure via `From<std::io::Error>` into
`CompileError::IOFailure`. The `released` field is modelled from the
spec: the scoped temporary directory (Rust `TempDir`, dropped on every
exit path, explicitly closed on the success path) is released by the end
of the call on success and failure alike. -/
def Lucetc.build (j : Lucetc) (w : World) (output : String) : BuildTrace :=
  match (j.link.link w j.wasm_file).status with
  | RunStatus.panicked m =>
    { status := RunStatus.panicked m, released := true }
  | RunStatus.failed e =>
    { status := RunStatus.failed e, released := true }
  | RunStatus.ok =>
    match w.codegen j.wasm_file output with
    | Except.error cause =>
      { status := RunStatus.failed (CompileError.Lucetc cause),
        released := true }
    | Except.ok _ =>
      match w.closeDir j.tmpdir with
      | Except.ok _ => { status := RunStatus.ok, released := true }
      | Except.error e =>
        { status := RunStatus.failed (CompileError.IOFailure e),
          released := true }

/-! ### Spec-side definitions

These follow the specification's words, to be compared with the
definitions above that embed the source. -/

/-- The intent→flags table of spec §4.3, written intent by intent. -/
def ldflag_table (o : LinkOpt) (p : Platform) : List String :=
  match o, p with
  | LinkOpt.AllowUndefined _, Platform.MachO => []
  | LinkOpt.AllowUndefined s, Platform.ELF => ["-U,_" ++ s]
  | LinkOpt.AllowUndefinedAll, Platform.MachO => ["-undefined,dynamic_lookup"]
  | LinkOpt.AllowUndefinedAll, Platform.ELF => ["--allow-undefined"]
  | LinkOpt.DefaultOpts, Platform.MachO => []
  | LinkOpt.DefaultOpts, Platform.ELF => ["--no-threads"]
  | LinkOpt.Export s, Platform.MachO => ["-exported_symbol," ++ s]
  | LinkOpt.Export s, Platform.ELF => ["--export=" ++ s]
  | LinkOpt.ExportAll, Platform.MachO => ["-export_dynamic"]
  | LinkOpt.ExportAll, Platform.ELF => ["--export-all"]
  | LinkOpt.NoDefaultEntryPoint, Platform.MachO => []
  | LinkOpt.NoDefaultEntryPoint, Platform.ELF => ["--no-entry"]
  | LinkOpt.Shared, Platform.MachO => ["-dylib"]
  | LinkOpt.Shared, Platform.ELF => ["--shared"]
  | LinkOpt.StripDebug, _ => ["-S"]
  | LinkOpt.StripUnused, Platform.MachO => ["-dead_strip"]
  | LinkOpt.StripUnused, Platform.ELF => ["--strip-discarded"]

/-- Spec §6's subprocess contract for Compile: argv is
`[--target=wasm32-unknown-wasi, --sysroot=<p>, -c, <input>, -o, <output>,
<cflags...>]`. -/
def compile_argv_spec (env : Env) (c : Compile) (output : String) :
    List String :=
  ["--target=wasm32-unknown-wasi", "--sysroot=" ++ wasi_sysroot env, "-c",
   c.input, "-o", output] ++ c.cflags

/-- Spec §6's subprocess contract for Link: argv is
`[<inputs...>, -o, <output>, <cflags...>, -Wl,<ldflag>...]`. -/
def link_argv_spec (l : Link) (output : String) : List String :=
  l.input ++ ["-o", output] ++ l.cflags
    ++ l.ldflags.map (fun f => "-Wl," ++ f)

/-- Spec §4.5's error routing for the pipeline: a link failure surfaces
unchanged; then a code-generator failure surfaces wrapped; otherwise the
cleanup result (an I/O error, if any) is the final status. -/
def build_status_spec (linkStatus : RunStatus) (cg : Except String Unit)
    (cleanup : Except String Unit) : RunStatus :=
  match linkStatus with
  | RunStatus.ok =>
    match cg with
    | Except.error cause => RunStatus.failed (CompileError.Lucetc cause)
    | Except.ok _ =>
      match cleanup with
      | Except.ok _ => RunStatus.ok
      | Except.error e => RunStatus.failed (CompileError.IOFailure e)
  | s => s

/-- An environment holding exactly the three variables the toolchain
locator consults. -/
def envOf (sdk sysroot clang : Option String) : Env := fun name =>
  if name = "WASI_SDK" then sdk
  else if name = "WASI_SYSROOT" then sysroot
  else if name = "CLANG" then clang
  else none

/-- The first path in the list that does not exist, if any — the order in
which `Link::link`'s input loop discovers a missing input. -/
def firstMissing (fs : String → Bool) : List String → Option String
  | [] => none
  | i :: rest => if fs i = false then some i else firstMissing fs rest

/-- The file paths named inside an error value: only `FileNotFound`
carries one. -/
def errorPaths : CompileError → List String
  | CompileError.FileNotFound p => [p]
  | _ => []

/-! ### Helper lemmas -/

/-- Folding `Cmd.arg` over a list appends the list to the argv. -/
theorem foldl_arg_eq (xs : List String) (cmd : Cmd) :
    List.foldl Cmd.arg cmd xs = Cmd.mk cmd.program (cmd.args ++ xs) := by
  induction xs generalizing cmd with
  | nil => simp
  | cons x xs ih => simp [Cmd.arg, ih]

/-- Folding `Cmd.arg ∘ g` over a list appends the mapped list. -/
theorem foldl_arg_map_eq (g : String → String) (xs : List String)
    (cmd : Cmd) :
    List.foldl (fun c f => c.arg (g f)) cmd xs
      = Cmd.mk cmd.program (cmd.args ++ xs.map g) := by
  induction xs generalizing cmd with
  | nil => simp
  | cons x xs ih =>
    rw [List.foldl_cons, ih]
    simp [Cmd.arg]

/-- When every input exists, the input loop appends them all. -/
theorem addInputs_all_exist (fs : String → Bool) (cmd : Cmd)
    (is : List String) (h : ∀ i ∈ is, fs i = true) :
    Link.addInputs fs cmd is = Except.ok (Cmd.mk cmd.program (cmd.args ++ is)) := by
  induction is generalizing cmd with
  | nil => simp [Link.addInputs]
  | cons i rest ih =>
    have hi : fs i = true := h i (List.mem_cons_self i rest)
    have hrest : ∀ j ∈ rest, fs j = true := fun j hj => h j (List.mem_cons_of_mem i hj)
    simp [Link.addInputs, hi, Cmd.arg, ih _ hrest]

/-- The input loop fails with the first missing input. -/
theorem addInputs_firstMissing (fs : String → Bool) (cmd : Cmd)
    (is : List String) (m : String) (h : firstMissing fs is = some m) :
    Link.addInputs fs cmd is = Except.error (CompileError.FileNotFound m) := by
  induction is generalizing cmd with
  | nil => simp [firstMissing] at h
  | cons i rest ih =>
    by_cases hi : fs i = false
    · simp [firstMissing, hi] at h
      subst h
      simp [Link.addInputs, hi]
    · simp [firstMissing, hi] at h
      simp [Link.addInputs, hi, ih _ h]

/-- Prepending `-Wl,` to a flag string is injective. -/
theorem wlWrap_injective : Function.Injective (fun f : String => "-Wl," ++ f) := by
  intro a b h
  have hd := congrArg String.data h
  simp only [String.data_append] at hd
  exact String.ext (List.append_cancel_left hd)

/-! ### Claims -/

/-- C1: for every link intent and each host platform, `as_ldflags` is
total and returns exactly the flag sequence of the spec §4.3 table; in
particular `DefaultOpts` translates to `["--no-threads"]` on ELF and to
`[]` on Mach-O, and on Mach-O `AllowUndefined(s)` and
`NoDefaultEntryPoint` also translate to `[]`. -/
theorem claim_C1_ldflags_match_table :
    (∀ (o : LinkOpt) (p : Platform),
        LinkOpt.as_ldflags o p = ldflag_table o p)
    ∧ LinkOpt.as_ldflags LinkOpt.DefaultOpts Platform.ELF = ["--no-threads"]
    ∧ LinkOpt.as_ldflags LinkOpt.DefaultOpts Platform.MachO = []
    ∧ (∀ s, LinkOpt.as_ldflags (LinkOpt.AllowUndefined s) Platform.MachO = [])
    ∧ LinkOpt.as_ldflags LinkOpt.NoDefaultEntryPoint Platform.MachO = [] := by
  refine ⟨?_, rfl, rfl, fun s => rfl, rfl⟩
  intro o p
  cases o <;> cases p <;> rfl

/-- C4: every `Link` constructor (`Link::new` directly, and `Lucetc::new`
via its embedded `Link`) produces a job whose `ldflags` equal the
translation of `DefaultOpts`, so a `Link` with no explicit intents equals
one carrying `DefaultOpts` exactly once; later intents are appended after
it. -/
theorem claim_C4_default_opts_injected :
    ∀ (p : Platform) (ins : List String) (d : String) (l : Link) (o : LinkOpt),
      (Link.new p ins).ldflags = LinkOpt.as_ldflags LinkOpt.DefaultOpts p
      ∧ Link.new p ins = (Link.mk ins [] [] false).with_link_opt p LinkOpt.DefaultOpts
      ∧ Lucetc.new p ins (some d) =
          MkLucetc.made (Lucetc.mk (Link.new p ins) d (pathPush d "out.wasm"))
      ∧ (l.link_opt p o).ldflags = l.ldflags ++ LinkOpt.as_ldflags o p := by
  intro p ins d l o
  refine ⟨?_, rfl, rfl, rfl⟩
  simp [Link.new, Link.with_link_opt, Link.link_opt]

/-- C5: `Lucetc::build` returns the Link stage's error unchanged when
linking fails, a `Lucetc` error wrapping the cause when shared-object
generation fails, and otherwise the result of closing the temporary
directory — a cleanup I/O error is the final status only when every
earlier step succeeded; in every case the temporary directory is
released by the end of the call. -/
theorem claim_C5_build_routing :
    ∀ (j : Lucetc) (w : World) (out : String),
      (j.build w out).status =
        build_status_spec (j.link.link w j.wasm_file).status
          (w.codegen j.wasm_file out) (w.closeDir j.tmpdir)
      ∧ (j.build w out).released = true := by
  intro j w out
  unfold Lucetc.build build_status_spec
  cases h : (j.link.link w j.wasm_file).status <;>
    cases hc : w.codegen j.wasm_file out <;>
      cases hd : w.closeDir j.tmpdir <;> simp [h, hc, hd]

/-- C8: appending the same cflag (or the same intent) twice yields a job
whose flag lists, and hence final argv, contain the flag twice, in the
same two positions as two separate single appends; no accumulator
deduplicates. -/
theorem claim_C8_no_dedup :
    ∀ (c : Compile) (l : Link) (p : Platform) (f : String) (o : LinkOpt)
      (env : Env) (out : String),
      ((c.cflag f).cflag f).cflags = c.cflags ++ [f, f]
      ∧ (c.with_cflag f).with_cflag f = (c.cflag f).cflag f
      ∧ ((l.cflag f).cflag f).cflags = l.cflags ++ [f, f]
      ∧ (l.with_cflag f).with_cflag f = (l.cflag f).cflag f
      ∧ ((l.link_opt p o).link_opt p o).ldflags =
          l.ldflags ++ LinkOpt.as_ldflags o p ++ LinkOpt.as_ldflags o p
      ∧ (compile_argv_spec env ((c.cflag f).cflag f) out).count f =
          (compile_argv_spec env c out).count f + 2
      ∧ (link_argv_spec ((l.cflag f).cflag f) out).count f =
          (link_argv_spec l out).count f + 2 := by
  intro c l p f o env out
  refine ⟨by simp [Compile.cflag], rfl, by simp [Link.cflag], rfl,
    by simp [Link.link_opt], ?_, ?_⟩
  · simp [compile_argv_spec, Compile.cflag, List.count_append, List.count_cons]
    omega
  · simp [link_argv_spec, Link.cflag, List.count_append, List.count_cons]
    omega

/-- C9: toolchain resolution reads environment overrides first with fixed
fallbacks: the SDK root is `WASI_SDK` or else `/opt/wasi-sdk`; the
sysroot is `WASI_SYSROOT` or else `<SDK root>/share/sysroot`; clang is
`CLANG` or else `<SDK root>/bin/clang`. The resolvers are total functions
of the environment alone — they never fail and never consult the
filesystem. -/
theorem claim_C9_toolchain_resolution :
    ∀ (sdk sys cl : Option String),
      wasi_sdk (envOf sdk sys cl) = sdk.getD "/opt/wasi-sdk"
      ∧ wasi_sysroot (envOf sdk sys cl) =
          sys.getD (pathPush (pathPush (sdk.getD "/opt/wasi-sdk") "share") "sysroot")
      ∧ wasm_clang (envOf sdk sys cl) =
          cl.getD (pathPush (pathPush (sdk.getD "/opt/wasi-sdk") "bin") "clang") := by
  intro sdk sys cl
  cases sdk <;> cases sys <;> cases cl <;>
    simp [wasi_sdk, wasi_sysroot, wasm_clang, envOf]

/-- A world in which every path exists and every spawn succeeds with
empty streams: the setting of the happy-path scenarios. -/
def wAll : World :=
  { env := fun _ => none, fs := fun _ => true,
    spawn := fun _ _ => some (Output.mk "" "" true),
    codegen := fun _ _ => Except.ok (), closeDir := fun _ => Except.ok () }

/-- C3: for every Compile job whose preconditions hold, the spawned argv
is exactly `--target=wasm32-unknown-wasi`, `--sysroot=<resolved>`, `-c`,
the input, `-o`, the output, then every cflag in insertion order — so the
target, sysroot and `-c` arguments all precede the input path. -/
theorem claim_C3_compile_argv (c : Compile) (w : World) (out : String)
    (hclang : w.fs (wasm_clang w.env) = true)
    (hin : w.fs c.input = true) :
    (c.compile w out).spawned =
      some (Cmd.mk (wasm_clang w.env) (compile_argv_spec w.env c out)) := by
  unfold Compile.compile
  simp only [hclang, hin, Bool.true_eq_false, if_false]
  rw [foldl_arg_eq]
  split <;> simp [Cmd.arg, compile_argv_spec, WASI_TARGET]

/-- C3 witness: scenario S1, compiling `a.c` to `a.o` in a world where
all paths exist. -/
theorem claim_C3_compile_argv_witness :
    ((Compile.new "a.c").compile wAll "a.o").spawned =
      some (Cmd.mk (wasm_clang wAll.env)
        (compile_argv_spec wAll.env (Compile.new "a.c") "a.o")) :=
  claim_C3_compile_argv (Compile.new "a.c") wAll "a.o" rfl rfl

/-- C2: for every Link job whose preconditions hold, the spawned argv is
the inputs in order, then `-o` and the output, then every cflag in
insertion order, then every ldflag in insertion order wrapped exactly
once as `-Wl,<flag>` (wrapping applied by the Link stage), all wrapped
ldflags after all cflags; wrapping is injective, so each ldflag occurs
in the wrapped section exactly as often as in `ldflags`. -/
theorem claim_C2_link_argv (l : Link) (w : World) (out : String)
    (hclang : w.fs (wasm_clang w.env) = true)
    (hins : ∀ i ∈ l.input, w.fs i = true) :
    (l.link w out).spawned =
      some (Cmd.mk (wasm_clang w.env) (link_argv_spec l out))
    ∧ ∀ f, (l.ldflags.map (fun g => "-Wl," ++ g)).count ("-Wl," ++ f)
        = l.ldflags.count f := by
  constructor
  · unfold Link.link
    simp only [hclang, Bool.true_eq_false, if_false,
      addInputs_all_exist w.fs _ l.input hins]
    rw [foldl_arg_eq, foldl_arg_map_eq]
    split <;> simp [Cmd.arg, link_argv_spec]
  · intro f
    exact List.count_map_of_injective l.ldflags _ wlWrap_injective f

/-- C2 witness: scenario S4, linking `a.c` and `b.c` into `ab.wasm` in a
world where all paths exist. -/
theorem claim_C2_link_argv_witness :
    ((Link.new Platform.ELF ["a.c", "b.c"]).link wAll "ab.wasm").spawned =
      some (Cmd.mk (wasm_clang wAll.env)
        (link_argv_spec (Link.new Platform.ELF ["a.c", "b.c"]) "ab.wasm"))
    ∧ ∀ f, ((Link.new Platform.ELF ["a.c", "b.c"]).ldflags.map
          (fun g => "-Wl," ++ g)).count ("-Wl," ++ f)
        = (Link.new Platform.ELF ["a.c", "b.c"]).ldflags.count f :=
  claim_C2_link_argv (Link.new Platform.ELF ["a.c", "b.c"]) wAll "ab.wasm"
    rfl (fun _ _ => rfl)

/-- A world in which every path exists but every spawn yields a failing
child with captured streams `"sout"` / `"serr"`. -/
def wOut : World :=
  { env := fun _ => none, fs := fun _ => true,
    spawn := fun _ _ => some (Output.mk "sout" "serr" false),
    codegen := fun _ _ => Except.ok (), closeDir := fun _ => Except.ok () }

/-- A world in which every path exists but spawning always fails (models
`Command::output` returning an error). -/
def wNoSpawn : World :=
  { env := fun _ => none, fs := fun _ => true, spawn := fun _ _ => none,
    codegen := fun _ _ => Except.ok (), closeDir := fun _ => Except.ok () }

/-- C7: for every Compile or Link job whose clang child exits non-zero,
the operation returns an `Execution` error carrying the full captured
stdout and stderr regardless of `print_output`; when `print_output` is
set, the captured streams are written through to the driver's standard
streams independently of the exit status — on success and failure
alike. -/
theorem claim_C7_captured_streams (c : Compile) (l : Link) (w : World)
    (o : Output) (outc outl : String)
    (hfs : ∀ q, w.fs q = true)
    (hspawn : ∀ prog args, w.spawn prog args = some o) :
    (c.compile w outc).writes =
      (if c.print_output then [StdWrite.toOut o.stdout, StdWrite.toErr o.stderr]
       else [])
    ∧ (c.compile w outc).status =
      (if o.success then RunStatus.ok
       else RunStatus.failed (CompileError.Execution o.stdout o.stderr))
    ∧ (l.link w outl).writes =
      (if l.print_output then [StdWrite.toOut o.stdout, StdWrite.toErr o.stderr]
       else [])
    ∧ (l.link w outl).status =
      (if o.success then RunStatus.ok
       else RunStatus.failed (CompileError.Execution o.stdout o.stderr)) := by
  unfold Compile.compile Link.link
  simp only [hfs, Bool.true_eq_false, if_false, hspawn,
    addInputs_all_exist w.fs _ l.input (fun i _ => hfs i)]
  cases ho : o.success <;>
    cases hp : c.print_output <;>
      cases hq : l.print_output <;>
        simp [CompileError.check, RunStatus.ofCheck, ho, hp, hq]

/-- C7 witness: a failing child with printing enabled on the Compile job
and disabled on the Link job. -/
theorem claim_C7_captured_streams_witness :
    (((Compile.new "a.c").with_print_output true).compile wOut "a.o").writes =
      (if ((Compile.new "a.c").with_print_output true).print_output then
        [StdWrite.toOut (Output.mk "sout" "serr" false).stdout,
         StdWrite.toErr (Output.mk "sout" "serr" false).stderr]
       else [])
    ∧ (((Compile.new "a.c").with_print_output true).compile wOut "a.o").status =
      (if (Output.mk "sout" "serr" false).success then RunStatus.ok
       else RunStatus.failed (CompileError.Execution
         (Output.mk "sout" "serr" false).stdout
         (Output.mk "sout" "serr" false).stderr))
    ∧ ((Link.new Platform.ELF ["a.o"]).link wOut "a.wasm").writes =
      (if (Link.new Platform.ELF ["a.o"]).print_output then
        [StdWrite.toOut (Output.mk "sout" "serr" false).stdout,
         StdWrite.toErr (Output.mk "sout" "serr" false).stderr]
       else [])
    ∧ ((Link.new Platform.ELF ["a.o"]).link wOut "a.wasm").status =
      (if (Output.mk "sout" "serr" false).success then RunStatus.ok
       else RunStatus.failed (CompileError.Execution
         (Output.mk "sout" "serr" false).stdout
         (Output.mk "sout" "serr" false).stderr)) :=
  claim_C7_captured_streams ((Compile.new "a.c").with_print_output true)
    (Link.new Platform.ELF ["a.o"]) wOut (Output.mk "sout" "serr" false)
    "a.o" "a.wasm" (fun _ => rfl) (fun _ _ => rfl)

/-- C10: when the existence checks pass but spawning the clang child
fails, `compile()` and `link()` panic with the `expect` message instead
of returning an error; likewise `Lucetc::new` panics when temporary
directory creation fails. -/
theorem claim_C10_panics (c : Compile) (l : Link) (p : Platform)
    (ins : List String) (w : World) (outc outl : String)
    (hfs : ∀ q, w.fs q = true)
    (hspawn : ∀ prog args, w.spawn prog args = none) :
    (c.compile w outc).status = RunStatus.panicked "clang executable exists"
    ∧ (l.link w outl).status = RunStatus.panicked "clang executable exists"
    ∧ Lucetc.new p ins none =
        MkLucetc.panicked "temporary directory creation failed" := by
  unfold Compile.compile Link.link
  simp only [hfs, Bool.true_eq_false, if_false, hspawn,
    addInputs_all_exist w.fs _ l.input (fun i _ => hfs i)]
  exact ⟨trivial, trivial, rfl⟩

/-- C10 witness: a world where everything exists but spawning fails. -/
theorem claim_C10_panics_witness :
    ((Compile.new "a.c").compile wNoSpawn "a.o").status =
      RunStatus.panicked "clang executable exists"
    ∧ ((Link.new Platform.ELF ["a.o"]).link wNoSpawn "a.wasm").status =
      RunStatus.panicked "clang executable exists"
    ∧ Lucetc.new Platform.ELF ["a.c"] none =
        MkLucetc.panicked "temporary directory creation failed" :=
  claim_C10_panics (Compile.new "a.c") (Link.new Platform.ELF ["a.o"])
    Platform.ELF ["a.c"] wNoSpawn "a.o" "a.wasm"
    (fun _ => rfl) (fun _ _ => rfl)

/-- A world in which exactly `x.o` and `y.o` are missing and spawning
fails, so any spawn attempt would be visible as a panic. -/
def wTwoMissing : World :=
  { env := fun _ => none,
    fs := fun q => !(q == "x.o" || q == "y.o"),
    spawn := fun _ _ => none,
    codegen := fun _ _ => Except.ok (), closeDir := fun _ => Except.ok () }

/-- C6 counterexample: with inputs `x.o` and `y.o` both missing (clang
present), `link()` returns `FileNotFound "x.o"` — the missing path
`y.o` does not appear in the error at all, so "each missing path appears
once in the error" fails. -/
theorem claim_C6_counterexample :
    wTwoMissing.fs (wasm_clang wTwoMissing.env) = true
    ∧ wTwoMissing.fs "x.o" = false
    ∧ wTwoMissing.fs "y.o" = false
    ∧ ((Link.new Platform.ELF ["x.o", "y.o"]).link wTwoMissing "out.wasm").status
        = RunStatus.failed (CompileError.FileNotFound "x.o")
    ∧ (errorPaths (CompileError.FileNotFound "x.o")).count "y.o" = 0 := by
  refine ⟨rfl, rfl, rfl, ?_, rfl⟩
  decide

/-- C6 (amended): if the resolved clang path or any input is missing,
`link()` returns a missing-file error naming the first missing path in
check order — clang first, then the inputs in order — exactly once, and
no subprocess is spawned; in particular for the single missing input
`does_not_exist.o` (clang present) the result is
`FileNotFound "does_not_exist.o"` with no spawn. -/
theorem claim_C6_first_missing (l : Link) (w : World) (out m : String)
    (h : (if w.fs (wasm_clang w.env) = false then some (wasm_clang w.env)
          else firstMissing w.fs l.input) = some m) :
    (l.link w out).status = RunStatus.failed (CompileError.FileNotFound m)
    ∧ (l.link w out).spawned = none
    ∧ (errorPaths (CompileError.FileNotFound m)).count m = 1 := by
  by_cases hc : w.fs (wasm_clang w.env) = false
  · simp only [hc, if_pos, Option.some.injEq] at h
    subst h
    unfold Link.link
    simp [hc, errorPaths]
  · simp only [hc, if_neg] at h
    unfold Link.link
    simp [hc, addInputs_firstMissing w.fs _ l.input m h, errorPaths]

/-- A world in which exactly `does_not_exist.o` is missing. -/
def wOneMissing : World :=
  { env := fun _ => none,
    fs := fun q => !(q == "does_not_exist.o"),
    spawn := fun _ _ => none,
    codegen := fun _ _ => Except.ok (), closeDir := fun _ => Except.ok () }

/-- C6 witness: scenario S6 — single missing input `does_not_exist.o`. -/
theorem claim_C6_first_missing_witness :
    ((Link.new Platform.ELF ["does_not_exist.o"]).link wOneMissing "out.wasm").status
      = RunStatus.failed (CompileError.FileNotFound "does_not_exist.o")
    ∧ ((Link.new Platform.ELF ["does_not_exist.o"]).link wOneMissing "out.wasm").spawned
      = none
    ∧ (errorPaths (CompileError.FileNotFound "does_not_exist.o")).count
        "does_not_exist.o" = 1 :=
  claim_C6_first_missing (Link.new Platform.ELF ["does_not_exist.o"])
    wOneMissing "out.wasm" "does_not_exist.o" (by decide)

end WasiSdk
